import Mathlib

/-!
Shallow embedding of the agent–collector live-link subsystem of the
monitaur repository (Go): the agent-side metric producer and transport
client, and the collector-side WebSocket connection registry and session
handler.  Durations and instants are nanoseconds as in Go's `time`
package; Go `float64` fields exchanged as JSON numbers are modelled as
exact rationals (ℚ); Go `uint64`/`int64` fields as `Nat`/`Int` with the
explicit range checks the decode path performs.
-/

namespace Monitaur

/-- One second in nanoseconds (Go `time.Second`). -/
def second : Nat := 1000000000

/-- One minute in nanoseconds (Go `time.Minute`). -/
def minute : Nat := 60 * second

/-! ## Agent metric producer (`metrics` package) -/

namespace Metrics

/-- Go `metrics.CPUInfo`. -/
structure CPUInfo where
  usage : ℚ
  cores : Int
  deriving Repr, DecidableEq

/-- Go `metrics.MemInfo`. -/
structure MemInfo where
  total : Nat
  available : Nat
  used : Nat
  usedPercent : ℚ
  deriving Repr, DecidableEq

/-- Go `metrics.DiskInfo`. -/
structure DiskInfo where
  total : Nat
  free : Nat
  used : Nat
  usedPercent : ℚ
  deriving Repr, DecidableEq

/-- Go `metrics.NetInfo`. -/
structure NetInfo where
  bytesSent : Nat
  bytesRecv : Nat
  packetsSent : Nat
  packetsRecv : Nat
  deriving Repr, DecidableEq

/-- Go `metrics.SystemMetrics`: a point-in-time sample produced by the
agent. The `timestamp` is an instant in nanoseconds. -/
structure SystemMetrics where
  timestamp : Nat
  serverName : String
  cpu : CPUInfo
  memory : MemInfo
  disk : DiskInfo
  network : NetInfo
  uptime : Int
  deriving Repr, DecidableEq

/-- Go `metrics.AlertThresholds`. -/
structure AlertThresholds where
  cpu : ℚ
  memory : ℚ
  disk : ℚ
  deriving Repr, DecidableEq

/-- Go `metrics.Alert`, as produced by the agent's local evaluator. -/
structure Alert where
  type : String
  level : String
  message : String
  value : ℚ
  threshold : ℚ
  timestamp : Nat
  deriving Repr, DecidableEq

/-- Decimal formatting with one digit after the point, modelling Go's
`fmt.Sprintf("%.1f", x)` on the exact value of the float64 argument:
round to the nearest tenth, ties to even. -/
def fmt1 (q : ℚ) : String :=
  let scaled : ℚ := q * 10
  let f : Int := ⌊scaled⌋
  let frac : ℚ := scaled - f
  let n : Int :=
    if frac > 1/2 then f + 1
    else if frac < 1/2 then f
    else if f % 2 = 0 then f else f + 1
  let a : Nat := n.natAbs
  (if n < 0 then "-" else "") ++ toString (a / 10) ++ "." ++ toString (a % 10)

/-- The message Go formats for a CPU alert:
`fmt.Sprintf("CPU usage is %.1f%% (threshold: %.1f%%)", v, t)`. -/
def cpuAlertMessage (v t : ℚ) : String :=
  "CPU usage is " ++ fmt1 v ++ "% (threshold: " ++ fmt1 t ++ "%)"

/-- The message Go formats for a memory alert. -/
def memoryAlertMessage (v t : ℚ) : String :=
  "Memory usage is " ++ fmt1 v ++ "% (threshold: " ++ fmt1 t ++ "%)"

/-- The message Go formats for a disk alert. -/
def diskAlertMessage (v t : ℚ) : String :=
  "Disk usage is " ++ fmt1 v ++ "% (threshold: " ++ fmt1 t ++ "%)"

/-- Go `(*Collector).CheckAlerts` (part_011 lines 121–158): appends one
warning alert per strictly-exceeded threshold, in the order cpu, memory,
disk. -/
def CheckAlerts (metrics : SystemMetrics) (thresholds : AlertThresholds) :
    List Alert :=
  (if thresholds.cpu < metrics.cpu.usage then
    [{ type := "cpu", level := "warning"
       message := cpuAlertMessage metrics.cpu.usage thresholds.cpu
       value := metrics.cpu.usage, threshold := thresholds.cpu
       timestamp := metrics.timestamp }]
   else []) ++
  (if thresholds.memory < metrics.memory.usedPercent then
    [{ type := "memory", level := "warning"
       message := memoryAlertMessage metrics.memory.usedPercent thresholds.memory
       value := metrics.memory.usedPercent, threshold := thresholds.memory
       timestamp := metrics.timestamp }]
   else []) ++
  (if thresholds.disk < metrics.disk.usedPercent then
    [{ type := "disk", level := "warning"
       message := diskAlertMessage metrics.disk.usedPercent thresholds.disk
       value := metrics.disk.usedPercent, threshold := thresholds.disk
       timestamp := metrics.timestamp }]
   else [])

end Metrics

/-! ## Agent transport client (`client` package)

Go's `time.Duration` and `int` are 64-bit signed integers whose
arithmetic wraps around (two's complement, defined behaviour in Go), so
the client's attempt counter, intervals and computed delay are modelled
as `Int` reduced by an explicit signed 64-bit wrap after every `+` and
`*` the source performs. -/

/-- Reduction of a mathematical integer to the value Go's signed 64-bit
arithmetic (int / int64 / time.Duration) produces: two's-complement
wraparound into `[-2^63, 2^63)`. -/
def wrap64 (i : Int) : Int := (i + 2 ^ 63) % 2 ^ 64 - 2 ^ 63

/-- One second in nanoseconds as a Go `time.Duration` (signed 64-bit). -/
def secondD : Int := 1000000000

/-- Go `client.Client` (part_010 lines 12–22): `connected` models
`conn != nil`; the counter and durations are signed 64-bit values. -/
structure Client where
  connected : Bool
  token : String
  endpoint : String
  serverName : String
  reconnectInterval : Int
  maxReconnectDelay : Int
  reconnectAttempts : Int
  deriving Repr, DecidableEq

/-- Go `client.NewClient` (part_010 lines 32–40). -/
def NewClient (endpoint token serverName : String) : Client :=
  { connected := false
    token := token, endpoint := endpoint, serverName := serverName
    reconnectInterval := 5 * secondD
    maxReconnectDelay := 60 * secondD
    reconnectAttempts := 0 }

/-- The state change and backoff-delay computation at the head of Go
`(*Client).handleDisconnection` (part_010 lines 136–148): clear the
connection, increment the attempt counter, multiply it by the base
interval — both in wrapping int64 arithmetic — and cap the result at
the maximum delay only when it exceeds it (a product that wraps
negative escapes the cap; `time.Sleep` treats a negative delay as
zero).  Returns the delay slept before the retry together with the
updated client. -/
def handleDisconnectionDelay (c : Client) : Int × Client :=
  let c := { c with connected := false
                    reconnectAttempts := wrap64 (c.reconnectAttempts + 1) }
  let delay := wrap64 (c.reconnectAttempts * c.reconnectInterval)
  let delay := if delay > c.maxReconnectDelay then c.maxReconnectDelay else delay
  (delay, c)

/-- Client state after `n` consecutive failed reconnection rounds, each
round being the counter/delay part of `handleDisconnection` (`Connect`
keeps failing, so the counter is never reset). -/
def afterFailures (c : Client) : Nat → Client
  | 0 => c
  | n + 1 => (handleDisconnectionDelay (afterFailures c n)).2

/-- The delay slept before reconnection attempt `n + 1` when every
earlier attempt failed. -/
def attemptDelay (c : Client) (n : Nat) : Int :=
  (handleDisconnectionDelay (afterFailures c n)).1

/-! ## The numeric leg of the collector's metrics parse path

The collector decodes an Envelope with `ReadJSON` into
`models.AgentMessage`, whose `Data` field is an untyped value: Go's
`encoding/json` turns every JSON number in it into a `float64`.
`handleMetricsMessage` then re-marshals that generic value and
unmarshals it into `models.MetricData`, parsing each number back into
the field's declared integer or float type.  For a `uint64` (or
`int64`/`int`) field the composite is: round the integer to the nearest
IEEE-754 binary64 (ties to even), then re-parse its decimal form,
failing on overflow of the destination type.  For every value these
theorems evaluate (magnitude at most 2^53 + 1) the rounded float64 is an
integer whose unit in the last place is at most 2, so the shortest
round-tripping decimal Go writes for it is exactly its integer value. -/

/-- Floor of the base-2 logarithm by repeated halving, written with a
structural fuel argument so that it evaluates inside the kernel. -/
def log2floorAux (fuel n : Nat) : Nat :=
  match fuel with
  | 0 => 0
  | fuel + 1 => if n ≤ 1 then 0 else 1 + log2floorAux fuel (n / 2)

/-- Floor of the base-2 logarithm (`0` at `0`). -/
def log2floor (n : Nat) : Nat := log2floorAux n n

/-- Round a natural number to the nearest integer exactly representable
in IEEE-754 binary64 (53-bit significand, ties to even): the value a
JSON integer literal takes when Go decodes it into an untyped value. -/
def f64roundNat (n : Nat) : Nat :=
  if n ≤ 2 ^ 53 then n
  else
    let e := log2floor n - 52
    let q := n / 2 ^ e
    let r := n % 2 ^ e
    let half := 2 ^ (e - 1)
    if r < half then q * 2 ^ e
    else if half < r then (q + 1) * 2 ^ e
    else if q % 2 = 0 then q * 2 ^ e else (q + 1) * 2 ^ e

/-- A `uint64` field's journey through the generic decode: float64
rounding, then re-parse with overflow check against `2^64`. -/
def decodeUint64ViaF64 (u : Nat) : Option Nat :=
  let v := f64roundNat u
  if v < 2 ^ 64 then some v else none

/-- An `int64` (or Go `int`) field's journey through the generic decode:
float64 rounding of the magnitude, then re-parse with the signed 64-bit
overflow check. -/
def decodeInt64ViaF64 (i : Int) : Option Int :=
  let v : Int := i.sign * (f64roundNat i.natAbs : Int)
  if -(2 ^ 63) ≤ v ∧ v < 2 ^ 63 then some v else none

/-! ## Collector data model (`backend/models` and `backend/database`) -/

namespace Models

/-- Go `models.Server`: a monitored target row.  `lastSeen` is `nil` or
an instant; `status` is one of "online", "offline", "warning". -/
structure Server where
  id : Nat
  userId : Nat
  token : String
  name : String
  lastSeen : Option Nat
  status : String
  deriving Repr, DecidableEq

/-- Go `models.Metric`: the stored metric row built by
`handleMetricsMessage` (the database-assigned primary key is omitted). -/
structure Metric where
  time : Nat
  serverId : Nat
  cpuUsage : ℚ
  cpuCores : Int
  memoryTotal : Nat
  memoryUsed : Nat
  memoryAvailable : Nat
  memoryPercent : ℚ
  diskTotal : Nat
  diskUsed : Nat
  diskFree : Nat
  diskPercent : ℚ
  networkBytesIn : Nat
  networkBytesOut : Nat
  uptime : Int
  deriving Repr, DecidableEq

/-- Go `models.Alert`: the stored alert row built by
`handleAlertMessage`. -/
structure Alert where
  serverId : Nat
  type : String
  level : String
  message : String
  value : ℚ
  threshold : ℚ
  resolved : Bool
  deriving Repr, DecidableEq

/-- CPU part of Go `models.MetricData`. -/
structure MetricDataCPU where
  usage : ℚ
  cores : Int
  deriving Repr, DecidableEq

/-- Memory part of Go `models.MetricData`. -/
structure MetricDataMemory where
  total : Nat
  available : Nat
  used : Nat
  usedPercent : ℚ
  deriving Repr, DecidableEq

/-- Disk part of Go `models.MetricData`. -/
structure MetricDataDisk where
  total : Nat
  free : Nat
  used : Nat
  usedPercent : ℚ
  deriving Repr, DecidableEq

/-- Network part of Go `models.MetricData`. -/
structure MetricDataNetwork where
  bytesSent : Nat
  bytesRecv : Nat
  packetsSent : Nat
  packetsRecv : Nat
  deriving Repr, DecidableEq

/-- Go `models.MetricData`: the metric schema the collector unmarshals a
"metrics" payload into. -/
structure MetricData where
  timestamp : Nat
  serverName : String
  cpu : MetricDataCPU
  memory : MetricDataMemory
  disk : MetricDataDisk
  network : MetricDataNetwork
  uptime : Int
  deriving Repr, DecidableEq

/-- Go `models.AlertData`: the alert schema the collector unmarshals an
"alert" payload into. -/
structure AlertData where
  type : String
  level : String
  message : String
  value : ℚ
  threshold : ℚ
  timestamp : Nat
  deriving Repr, DecidableEq

/-- The untyped `Data` value of a decoded Envelope, observed only
through the two staged conversions the collector applies to it
(re-marshal, then unmarshal into the discriminant's schema); `none`
means the payload is not an object or fails that unmarshal, so the
handler drops the message. -/
structure GenericData where
  asMetricData : Option MetricData
  asAlertData : Option AlertData
  deriving Repr, DecidableEq

/-- Go `models.AgentMessage`: a decoded Envelope. -/
structure AgentMessage where
  type : String
  token : String
  serverName : String
  data : GenericData
  timestamp : Nat
  deriving Repr, DecidableEq

/-- The collector's relational store, reduced to the rows this core
reads and writes. -/
structure Database where
  servers : List Server
  metrics : List Metric
  alerts : List Alert
  deriving Repr, DecidableEq

/-- Go `(*Database).GetServerByToken` (postgres.go lines 168–175). -/
def GetServerByToken (db : Database) (token : String) : Option Server :=
  db.servers.find? (fun s => s.token = token)

/-- Go `(*Database).UpdateServerLastSeen` (postgres.go lines 189–195):
sets `last_seen` to now AND `status` to "online" on the target's row. -/
def UpdateServerLastSeen (db : Database) (serverID now : Nat) : Database :=
  { db with servers := db.servers.map (fun s =>
      if s.id = serverID then { s with lastSeen := some now, status := "online" } else s) }

/-- Go `(*Database).UpdateServerStatus` (postgres.go lines 197–199). -/
def UpdateServerStatus (db : Database) (serverID : Nat) (status : String) : Database :=
  { db with servers := db.servers.map (fun s =>
      if s.id = serverID then { s with status := status } else s) }

/-- Go `h.db.DB.Save(server)`: GORM updates the row with the record's
primary key to the record's field values. -/
def saveServer (db : Database) (s : Server) : Database :=
  { db with servers := db.servers.map (fun x => if x.id = s.id then s else x) }

/-- Go `(*Database).CreateMetric` (postgres.go). -/
def CreateMetric (db : Database) (m : Metric) : Database :=
  { db with metrics := db.metrics ++ [m] }

/-- Go `(*Database).CreateAlert`. -/
def CreateAlert (db : Database) (a : Alert) : Database :=
  { db with alerts := db.alerts ++ [a] }

end Models

/-- The full numeric leg of the collector's "metrics" parse path, from
the `metrics.SystemMetrics` value the agent serialized inside an
Envelope of type "metrics" to the `models.MetricData` the collector's
`handleMetricsMessage` recovers: float64 fields, strings and the
RFC3339 timestamp round-trip exactly through JSON (Go writes the
shortest decimal that parses back to the same float64); every integer
field passes through float64 rounding and a 64-bit re-parse; failure of
any field fails the whole unmarshal and the message is dropped. -/
def roundTripMetrics (m : Metrics.SystemMetrics) : Option Models.MetricData := do
  let cores ← decodeInt64ViaF64 m.cpu.cores
  let memTotal ← decodeUint64ViaF64 m.memory.total
  let memAvailable ← decodeUint64ViaF64 m.memory.available
  let memUsed ← decodeUint64ViaF64 m.memory.used
  let diskTotal ← decodeUint64ViaF64 m.disk.total
  let diskFree ← decodeUint64ViaF64 m.disk.free
  let diskUsed ← decodeUint64ViaF64 m.disk.used
  let bytesSent ← decodeUint64ViaF64 m.network.bytesSent
  let bytesRecv ← decodeUint64ViaF64 m.network.bytesRecv
  let packetsSent ← decodeUint64ViaF64 m.network.packetsSent
  let packetsRecv ← decodeUint64ViaF64 m.network.packetsRecv
  let uptime ← decodeInt64ViaF64 m.uptime
  pure
    { timestamp := m.timestamp
      serverName := m.serverName
      cpu := { usage := m.cpu.usage, cores := cores }
      memory := { total := memTotal, available := memAvailable
                  used := memUsed, usedPercent := m.memory.usedPercent }
      disk := { total := diskTotal, free := diskFree
                used := diskUsed, usedPercent := m.disk.usedPercent }
      network := { bytesSent := bytesSent, bytesRecv := bytesRecv
                   packetsSent := packetsSent, packetsRecv := packetsRecv }
      uptime := uptime }

/-! ## Collector session handler and connection registry
(`backend/handlers`, part_000)

Go stores `map[uint]*AgentConnection`; the registry is modelled as an
association list from server ID to a connection identifier `cid` (the
model of the Go pointer), and the handler state carries a heap
`conns : Nat → AgentConnection` so that a connection object superseded
in the map keeps its own mutable state, exactly as the Go object the
still-running reader and writer goroutines hold a pointer to. -/

namespace Handlers

/-- Go `handlers.AgentConnection` (part_000 lines 27–32), with the
transport and channel state made explicit: `sendClosed` is true once
`close(send)` ran, `transportClosed` once `conn.Close()` ran;
`readDeadline` is the current liveness read-deadline instant. -/
structure AgentConnection where
  cid : Nat
  serverId : Nat
  serverName : String
  lastPing : Nat
  readDeadline : Nat
  send : List String
  sendClosed : Bool
  transportClosed : Bool
  deriving Repr, DecidableEq

/-- A zero connection object, the heap's value at unallocated
identifiers. -/
def emptyConn : AgentConnection :=
  { cid := 0, serverId := 0, serverName := "", lastPing := 0
    readDeadline := 0, send := [], sendClosed := false, transportClosed := false }

/-- Go `handlers.WebSocketHandler` (part_000 lines 34–38). -/
structure WebSocketHandler where
  db : Models.Database
  connections : List (Nat × Nat)
  conns : Nat → AgentConnection
  nextCid : Nat

/-- Go `handlers.NewWebSocketHandler` (part_000 lines 40–50): empty
registry. -/
def NewWebSocketHandler (db : Models.Database) : WebSocketHandler :=
  { db := db, connections := [], conns := fun _ => emptyConn, nextCid := 0 }

/-- Lookup in the Go map `h.connections`. -/
def mapLookup (m : List (Nat × Nat)) (k : Nat) : Option Nat :=
  (m.find? (fun p => p.1 = k)).map (fun p => p.2)

/-- Insertion into the Go map: binds `k` to `v`, replacing any previous
binding of `k`. -/
def mapInsert (m : List (Nat × Nat)) (k v : Nat) : List (Nat × Nat) :=
  (k, v) :: m.filter (fun p => p.1 ≠ k)

/-- Deletion from the Go map. -/
def mapErase (m : List (Nat × Nat)) (k : Nat) : List (Nat × Nat) :=
  m.filter (fun p => p.1 ≠ k)

/-- Mutation of the connection object at `cid` (a write through the Go
pointer). -/
def updateConn (h : WebSocketHandler) (cid : Nat)
    (f : AgentConnection → AgentConnection) : WebSocketHandler :=
  { h with conns := fun c => if c = cid then f (h.conns c) else h.conns c }

/-- The response `HandleAgentConnection` produces: the three JSON error
responses, a failed upgrade (logged, no JSON body), or an established
session. -/
inductive ConnectResponse where
  | badRequest
  | unauthorized
  | serverError
  | upgradeFailed
  | connected
  deriving Repr, DecidableEq

/-- Result of one call to `HandleAgentConnection`: the new handler
state, the response, whether the transport upgrade was performed, and
the identifier of the registered connection when one was created. -/
structure ConnectResult where
  state : WebSocketHandler
  response : ConnectResponse
  upgraded : Bool
  newCid : Option Nat

/-- Go `(*WebSocketHandler).HandleAgentConnection` (part_000 lines
53–108).  `dbFail` models a non-not-found error from
`GetServerByToken`; `upgradeFail` a failed `upgrader.Upgrade`.  In
order: empty token → 400; unknown token → 401; db error → 500; rename
the target when a different non-empty `server_name` was declared and
persist it; upgrade; allocate the connection (queue capacity 256,
`lastPing` now); bind the server ID to it in the registry, replacing
any previous binding without touching the superseded object; update the
target's last-seen (which also sets its status "online"). -/
def HandleAgentConnection (h : WebSocketHandler) (token serverName : String)
    (dbFail upgradeFail : Bool) (now : Nat) : ConnectResult :=
  if token = "" then ⟨h, .badRequest, false, none⟩
  else if dbFail then ⟨h, .serverError, false, none⟩
  else
    match Models.GetServerByToken h.db token with
    | none => ⟨h, .unauthorized, false, none⟩
    | some server =>
      let server' :=
        if serverName ≠ "" ∧ server.name ≠ serverName
        then { server with name := serverName } else server
      let h1 :=
        if serverName ≠ "" ∧ server.name ≠ serverName
        then { h with db := Models.saveServer h.db server' } else h
      if upgradeFail then ⟨h1, .upgradeFailed, false, none⟩
      else
        let cid := h1.nextCid
        let conn : AgentConnection :=
          { cid := cid, serverId := server'.id, serverName := server'.name
            lastPing := now, readDeadline := 0, send := []
            sendClosed := false, transportClosed := false }
        let h2 : WebSocketHandler :=
          { db := h1.db
            connections := mapInsert h1.connections server'.id cid
            conns := fun c => if c = cid then conn else h1.conns c
            nextCid := cid + 1 }
        let h3 := { h2 with db := Models.UpdateServerLastSeen h2.db server'.id now }
        ⟨h3, .connected, true, some cid⟩

/-- Go `(*WebSocketHandler).unregisterConnection` (part_000 lines
288–301): if the registry has *any* entry under the given connection's
server ID, delete that entry, close the given connection's send
channel, and mark the target offline.  Note the entry is keyed only by
server ID: it is deleted even when it points at a different (newer)
connection object. -/
def unregisterConnection (h : WebSocketHandler) (cid : Nat) : WebSocketHandler :=
  let conn := h.conns cid
  if (mapLookup h.connections conn.serverId).isSome then
    let h1 := { h with connections := mapErase h.connections conn.serverId }
    let h2 := updateConn h1 cid (fun c => { c with sendClosed := true })
    { h2 with db := Models.UpdateServerStatus h2.db conn.serverId "offline" }
  else h

/-- The deferred epilogue of `handleAgentMessages` (part_000 lines
112–115), run when the reader loop exits: deregister, then close the
transport. -/
def readerExit (h : WebSocketHandler) (cid : Nat) : WebSocketHandler :=
  let h1 := unregisterConnection h cid
  updateConn h1 cid (fun c => { c with transportClosed := true })

/-- The prologue of `handleAgentMessages` (part_000 line 118): the
initial 60-second liveness read-deadline. -/
def readerStart (h : WebSocketHandler) (cid : Nat) (now : Nat) : WebSocketHandler :=
  updateConn h cid (fun c => { c with readDeadline := now + 60 * second })

/-- The pong handler installed by `handleAgentMessages` (part_000 lines
119–123): on a received pong, record the liveness timestamp and reset
the read-deadline. -/
def pongHandler (h : WebSocketHandler) (cid : Nat) (now : Nat) : WebSocketHandler :=
  updateConn h cid (fun c =>
    { c with lastPing := now, readDeadline := now + 60 * second })

/-- Go `(*WebSocketHandler).handleMetricsMessage` (part_000 lines
180–240): re-marshal the generic payload and unmarshal it into the
metric schema (drop the message on failure), store the metric row,
derive the coarse status — "warning" when cpu usage exceeds 90 or
memory or disk used-percent exceeds 95, else "online" — and record it
on the target. -/
def handleMetricsMessage (h : WebSocketHandler) (cid : Nat)
    (message : Models.AgentMessage) : WebSocketHandler :=
  match message.data.asMetricData with
  | none => h
  | some md =>
    let conn := h.conns cid
    let metric : Models.Metric :=
      { time := md.timestamp, serverId := conn.serverId
        cpuUsage := md.cpu.usage, cpuCores := md.cpu.cores
        memoryTotal := md.memory.total, memoryUsed := md.memory.used
        memoryAvailable := md.memory.available, memoryPercent := md.memory.usedPercent
        diskTotal := md.disk.total, diskUsed := md.disk.used
        diskFree := md.disk.free, diskPercent := md.disk.usedPercent
        networkBytesIn := md.network.bytesRecv, networkBytesOut := md.network.bytesSent
        uptime := md.uptime }
    let db := Models.CreateMetric h.db metric
    let status :=
      if 90 < md.cpu.usage ∨ 95 < md.memory.usedPercent ∨ 95 < md.disk.usedPercent
      then "warning" else "online"
    { h with db := Models.UpdateServerStatus db conn.serverId status }

/-- Go `(*WebSocketHandler).handleAlertMessage` (part_000 lines
243–285): unmarshal the generic payload into the alert schema (drop the
message on failure) and store the alert row, unresolved. -/
def handleAlertMessage (h : WebSocketHandler) (cid : Nat)
    (message : Models.AgentMessage) : WebSocketHandler :=
  match message.data.asAlertData with
  | none => h
  | some ad =>
    let conn := h.conns cid
    let alert : Models.Alert :=
      { serverId := conn.serverId, type := ad.type, level := ad.level
        message := ad.message, value := ad.value, threshold := ad.threshold
        resolved := false }
    { h with db := Models.CreateAlert h.db alert }

/-- The dispatch switch of the reader loop (part_000 lines 136–143):
"metrics" and "alert" go to their handlers, any other discriminant is
only logged. -/
def dispatchAgentMessage (h : WebSocketHandler) (cid : Nat)
    (message : Models.AgentMessage) : WebSocketHandler :=
  if message.type = "metrics" then handleMetricsMessage h cid message
  else if message.type = "alert" then handleAlertMessage h cid message
  else h

/-- One successful iteration of the reader loop of
`handleAgentMessages` (part_000 lines 125–147): dispatch the decoded
Envelope by its discriminant, then update the target's last-seen (which
also sets its status "online").  The connection object itself is not
touched: neither `lastPing` nor the read-deadline changes here. -/
def handleAgentMessagesStep (h : WebSocketHandler) (cid : Nat)
    (message : Models.AgentMessage) (now : Nat) : WebSocketHandler :=
  let h1 := dispatchAgentMessage h cid message
  { h1 with db := Models.UpdateServerLastSeen h1.db (h.conns cid).serverId now }

/-- Go `(*WebSocketHandler).cleanupStaleConnections` (part_000 lines
317–330): for every registered connection whose `lastPing` is more than
two minutes old, close its transport, delete its registry entry and
mark its target offline. -/
def cleanupStaleConnections (h : WebSocketHandler) (now : Nat) : WebSocketHandler :=
  h.connections.foldl (fun acc p =>
    let conn := acc.conns p.2
    if 2 * minute < now - conn.lastPing then
      let a1 := updateConn acc p.2 (fun c => { c with transportClosed := true })
      let a2 := { a1 with connections := mapErase a1.connections p.1 }
      { a2 with db := Models.UpdateServerStatus a2.db p.1 "offline" }
    else acc) h

/-- Outcome of `SendMessageToAgent`: success, the two error values
`ErrAgentNotConnected` and `ErrAgentNotResponding`, or the Go runtime
panic a send on a closed channel raises (unreachable from the
operations above while the connection is registered). -/
inductive SendResult where
  | ok
  | errAgentNotConnected
  | errAgentNotResponding
  | panicSendOnClosed
  deriving Repr, DecidableEq

/-- The outbound queue's bounded capacity, `make(chan []byte, 256)`. -/
def sendQueueCapacity : Nat := 256

/-- Go `(*WebSocketHandler).SendMessageToAgent` (part_000 lines
333–360): look the identity up under the read lock — no registered
connection is `ErrAgentNotConnected`; build and marshal the envelope
(`dataRepr` stands for the marshalled payload); then a non-blocking
send on the bounded queue — a full queue is `ErrAgentNotResponding`,
immediately, with nothing enqueued. -/
def SendMessageToAgent (h : WebSocketHandler) (serverID : Nat)
    (messageType : String) (dataRepr : String) (now : Nat) :
    SendResult × WebSocketHandler :=
  match mapLookup h.connections serverID with
  | none => (.errAgentNotConnected, h)
  | some cid =>
    let conn := h.conns cid
    let payload := messageType ++ "|" ++ dataRepr ++ "|" ++ toString now
    if conn.sendClosed then (.panicSendOnClosed, h)
    else if conn.send.length < sendQueueCapacity then
      (.ok, updateConn h cid (fun c => { c with send := c.send ++ [payload] }))
    else (.errAgentNotResponding, h)

/-- Go `(*WebSocketHandler).IsAgentConnected` (part_000 lines 375–381). -/
def IsAgentConnected (h : WebSocketHandler) (serverID : Nat) : Bool :=
  (mapLookup h.connections serverID).isSome

end Handlers

/-! ## Transport client backoff (claim C3) -/

/-- The wrap is the identity exactly on the signed 64-bit range. -/
theorem wrap64_eq_self (i : Int) (h1 : -(2 ^ 63) ≤ i) (h2 : i < 2 ^ 63) :
    wrap64 i = i := by
  unfold wrap64
  rw [Int.emod_eq_of_lt (by omega) (by omega)]
  omega

/-- Failed reconnection rounds never change the configured base
interval. -/
theorem afterFailures_reconnectInterval (c : Client) (n : Nat) :
    (afterFailures c n).reconnectInterval = c.reconnectInterval := by
  induction n with
  | zero => rfl
  | succ n ih => simp [afterFailures, handleDisconnectionDelay, ih]

/-- Failed reconnection rounds never change the configured maximum
delay. -/
theorem afterFailures_maxReconnectDelay (c : Client) (n : Nat) :
    (afterFailures c n).maxReconnectDelay = c.maxReconnectDelay := by
  induction n with
  | zero => rfl
  | succ n ih => simp [afterFailures, handleDisconnectionDelay, ih]

/-- Each failed reconnection round increments the attempt counter by
one — it is never reset along a run of failures — as long as the
counter stays inside the int64 range. -/
theorem afterFailures_reconnectAttempts (c : Client)
    (ha : 0 ≤ c.reconnectAttempts) :
    ∀ n : Nat, c.reconnectAttempts + n < 2 ^ 63 →
      (afterFailures c n).reconnectAttempts = c.reconnectAttempts + n := by
  intro n
  induction n with
  | zero => intro _; simp [afterFailures]
  | succ n ih =>
    intro hb
    have hb' : c.reconnectAttempts + (n : Int) < 2 ^ 63 := by push_cast at hb ⊢; omega
    simp only [afterFailures, handleDisconnectionDelay]
    rw [ih hb', wrap64_eq_self _ (by omega) (by push_cast at hb ⊢; omega)]
    push_cast
    ring

/-- As long as neither the incremented counter nor the product with the
base interval overflows int64, the delay before attempt `n + 1` is the
counter times the interval, capped at the maximum delay. -/
theorem attemptDelay_eq_of_no_overflow (c : Client) (n : Nat)
    (ha : 0 ≤ c.reconnectAttempts) (hi : 0 ≤ c.reconnectInterval)
    (hcnt : c.reconnectAttempts + (n : Int) + 1 < 2 ^ 63)
    (hprod : (c.reconnectAttempts + n + 1) * c.reconnectInterval < 2 ^ 63) :
    attemptDelay c n
      = min ((c.reconnectAttempts + n + 1) * c.reconnectInterval) c.maxReconnectDelay := by
  have hmul0 : 0 ≤ (c.reconnectAttempts + (n : Int) + 1) * c.reconnectInterval :=
    mul_nonneg (by positivity) hi
  have h1 : wrap64 (c.reconnectAttempts + (n : Int) + 1)
      = c.reconnectAttempts + (n : Int) + 1 :=
    wrap64_eq_self _ (by omega) (by omega)
  have h2 : wrap64 ((c.reconnectAttempts + (n : Int) + 1) * c.reconnectInterval)
      = (c.reconnectAttempts + (n : Int) + 1) * c.reconnectInterval :=
    wrap64_eq_self _ (by omega) (by omega)
  unfold attemptDelay handleDisconnectionDelay
  rw [afterFailures_reconnectAttempts c ha n (by omega)]
  simp only [afterFailures_reconnectInterval, afterFailures_maxReconnectDelay]
  rw [h1, h2]
  split <;> omega

/-- Whatever the attempt count — the overflow region included — the if
on the computed delay never returns a value above the configured
maximum (a wrapped product is negative and passes through below it). -/
theorem attemptDelay_le_maxReconnectDelay (c : Client) (n : Nat) :
    attemptDelay c n ≤ c.maxReconnectDelay := by
  unfold attemptDelay handleDisconnectionDelay
  simp only [afterFailures_maxReconnectDelay]
  split <;> omega

/-- C3, amended: for every reconnection attempt number n ≥ 1 (the
`n`-th attempt is `attemptDelay _ (n-1)`) whose product n × base does
not overflow int64 — that is n ≤ 1 844 674 407 at base 5s — the
computed delay is `min (n × base) max`; with the constructed client
(base 5s, max 60s) the delays for attempts 1, 2, 3 are 5s, 10s, 15s,
and for every attempt count, overflow included, the computed delay
never exceeds 60s.  Beyond the overflow point the int64 product wraps
negative, so the equation `min (n × base) max` itself fails there. -/
theorem reconnect_backoff_linear_capped (endpoint token serverName : String) (n : Nat)
    (hn : ((n : Int) + 1) * (5 * secondD) < 2 ^ 63) :
    attemptDelay (NewClient endpoint token serverName) n
      = min (((n : Int) + 1) * (5 * secondD)) (60 * secondD)
    ∧ attemptDelay (NewClient endpoint token serverName) 0 = 5 * secondD
    ∧ attemptDelay (NewClient endpoint token serverName) 1 = 10 * secondD
    ∧ attemptDelay (NewClient endpoint token serverName) 2 = 15 * secondD
    ∧ (∀ k : Nat, attemptDelay (NewClient endpoint token serverName) k ≤ 60 * secondD) := by
  have hmain : ∀ k : Nat, ((k : Int) + 1) * (5 * secondD) < 2 ^ 63 →
      attemptDelay (NewClient endpoint token serverName) k
        = min (((k : Int) + 1) * (5 * secondD)) (60 * secondD) := by
    intro k hk
    have hstep : (k : Int) + 1 ≤ ((k : Int) + 1) * (5 * secondD) :=
      le_mul_of_one_le_right (by positivity) (by norm_num [secondD])
    have := attemptDelay_eq_of_no_overflow (NewClient endpoint token serverName) k
      (by norm_num [NewClient]) (by norm_num [NewClient, secondD])
      (by simp only [NewClient]; omega)
      (by simp only [NewClient]; rw [zero_add]; exact hk)
    simpa [NewClient] using this
  refine ⟨hmain n hn, ?_, ?_, ?_, ?_⟩
  · rw [hmain 0 (by norm_num [secondD])]; norm_num [secondD]
  · rw [hmain 1 (by norm_num [secondD])]; norm_num [secondD]
  · rw [hmain 2 (by norm_num [secondD])]; norm_num [secondD]
  · intro k
    have := attemptDelay_le_maxReconnectDelay (NewClient endpoint token serverName) k
    simpa [NewClient] using this

/-- C3 witness: attempt 3 sleeps 15s, and attempt 101's delay is still
at most 60s. -/
theorem reconnect_backoff_witness :
    attemptDelay (NewClient "ws-endpoint" "tok" "srv") 2 = 15 * secondD
    ∧ attemptDelay (NewClient "ws-endpoint" "tok" "srv") 100 ≤ 60 * secondD := by
  have h := reconnect_backoff_linear_capped "ws-endpoint" "tok" "srv" 2
    (by norm_num [secondD])
  exact ⟨h.2.2.2.1, h.2.2.2.2 100⟩

/-- C3 counterexample: at reconnection attempt 1 844 674 408 the int64
product 1844674408 × 5s wraps to the negative duration
-9223372033709551616 ns; the cap comparison does not fire, so the
computed delay is that negative value, not `min (n × base) max` = 60s. -/
theorem backoff_delay_wraps_at_large_attempt :
    attemptDelay (NewClient "e" "t" "s") 1844674407 = -9223372033709551616
    ∧ ¬ (attemptDelay (NewClient "e" "t" "s") 1844674407
        = min (((1844674407 : Int) + 1) * (5 * secondD)) (60 * secondD)) := by
  have hatt : (afterFailures (NewClient "e" "t" "s") 1844674407).reconnectAttempts
      = 1844674407 := by
    have := afterFailures_reconnectAttempts (NewClient "e" "t" "s")
      (by norm_num [NewClient]) 1844674407 (by norm_num [NewClient])
    simpa [NewClient] using this
  have hint : (afterFailures (NewClient "e" "t" "s") 1844674407).reconnectInterval
      = 5000000000 := by
    rw [afterFailures_reconnectInterval]
    norm_num [NewClient, secondD]
  have hmax : (afterFailures (NewClient "e" "t" "s") 1844674407).maxReconnectDelay
      = 60000000000 := by
    rw [afterFailures_maxReconnectDelay]
    norm_num [NewClient, secondD]
  have hw1 : wrap64 ((1844674407 : Int) + 1) = 1844674408 := by
    rw [wrap64_eq_self _ (by norm_num) (by norm_num)]
    norm_num
  have hw2 : wrap64 ((1844674408 : Int) * 5000000000) = -9223372033709551616 := by
    unfold wrap64
    decide
  have hval : attemptDelay (NewClient "e" "t" "s") 1844674407
      = -9223372033709551616 := by
    unfold attemptDelay handleDisconnectionDelay
    rw [hatt, hint, hmax, hw1]
    dsimp only
    rw [hw2]
    norm_num
  refine ⟨hval, ?_⟩
  rw [hval]
  norm_num [secondD]

/-! ## Agent-side alert evaluation (claims C5 and C9) -/

namespace Metrics

/-- The number of cpu alerts is one exactly when the cpu threshold is
strictly exceeded, zero otherwise. -/
theorem CheckAlerts_countP_cpu (m : SystemMetrics) (t : AlertThresholds) :
    (CheckAlerts m t).countP (fun a => a.type == "cpu")
      = if t.cpu < m.cpu.usage then 1 else 0 := by
  unfold CheckAlerts
  split_ifs <;> simp_all [List.countP_append, List.countP_cons, List.countP_nil]

/-- The number of memory alerts is one exactly when the memory
threshold is strictly exceeded, zero otherwise. -/
theorem CheckAlerts_countP_memory (m : SystemMetrics) (t : AlertThresholds) :
    (CheckAlerts m t).countP (fun a => a.type == "memory")
      = if t.memory < m.memory.usedPercent then 1 else 0 := by
  unfold CheckAlerts
  split_ifs <;> simp_all [List.countP_append, List.countP_cons, List.countP_nil]

/-- The number of disk alerts is one exactly when the disk threshold is
strictly exceeded, zero otherwise. -/
theorem CheckAlerts_countP_disk (m : SystemMetrics) (t : AlertThresholds) :
    (CheckAlerts m t).countP (fun a => a.type == "disk")
      = if t.disk < m.disk.usedPercent then 1 else 0 := by
  unfold CheckAlerts
  split_ifs <;> simp_all [List.countP_append, List.countP_cons, List.countP_nil]

/-- Every alert `CheckAlerts` returns carries level "warning", the
sample's timestamp, and per family the observed value, the configured
threshold and the message formatted from both; an alert of a family is
present only when that family's threshold is strictly exceeded. -/
theorem CheckAlerts_mem_fields (m : SystemMetrics) (t : AlertThresholds) :
    ∀ a ∈ CheckAlerts m t,
      a.level = "warning" ∧ a.timestamp = m.timestamp ∧
      ((a.type = "cpu" ∧ a.value = m.cpu.usage ∧ a.threshold = t.cpu ∧
          a.message = cpuAlertMessage m.cpu.usage t.cpu ∧ t.cpu < m.cpu.usage)
       ∨ (a.type = "memory" ∧ a.value = m.memory.usedPercent ∧ a.threshold = t.memory ∧
          a.message = memoryAlertMessage m.memory.usedPercent t.memory ∧
          t.memory < m.memory.usedPercent)
       ∨ (a.type = "disk" ∧ a.value = m.disk.usedPercent ∧ a.threshold = t.disk ∧
          a.message = diskAlertMessage m.disk.usedPercent t.disk ∧
          t.disk < m.disk.usedPercent)) := by
  unfold CheckAlerts
  split_ifs <;> intro a ha <;> simp_all [List.mem_append] <;> rcases ha with h | h | h <;>
    simp_all

/-- C5: `CheckAlerts` returns exactly one AlertEvent per strictly
exceeded threshold and none for a family whose threshold is not
exceeded; each alert has level "warning", its Value the observed metric
value, its Threshold the configured threshold, and a message embedding
both; being a function of the sample and thresholds alone, the result
carries no state across calls. -/
theorem CheckAlerts_one_alert_per_exceeded_threshold
    (m : SystemMetrics) (t : AlertThresholds) :
    ((CheckAlerts m t).countP (fun a => a.type == "cpu")
        = if t.cpu < m.cpu.usage then 1 else 0)
    ∧ ((CheckAlerts m t).countP (fun a => a.type == "memory")
        = if t.memory < m.memory.usedPercent then 1 else 0)
    ∧ ((CheckAlerts m t).countP (fun a => a.type == "disk")
        = if t.disk < m.disk.usedPercent then 1 else 0)
    ∧ (∀ a ∈ CheckAlerts m t,
        a.level = "warning" ∧ a.timestamp = m.timestamp ∧
        ((a.type = "cpu" ∧ a.value = m.cpu.usage ∧ a.threshold = t.cpu ∧
            a.message = cpuAlertMessage m.cpu.usage t.cpu)
         ∨ (a.type = "memory" ∧ a.value = m.memory.usedPercent ∧ a.threshold = t.memory ∧
            a.message = memoryAlertMessage m.memory.usedPercent t.memory)
         ∨ (a.type = "disk" ∧ a.value = m.disk.usedPercent ∧ a.threshold = t.disk ∧
            a.message = diskAlertMessage m.disk.usedPercent t.disk))) := by
  refine ⟨CheckAlerts_countP_cpu m t, CheckAlerts_countP_memory m t,
    CheckAlerts_countP_disk m t, ?_⟩
  intro a ha
  obtain ⟨h1, h2, h3⟩ := CheckAlerts_mem_fields m t a ha
  exact ⟨h1, h2, by tauto⟩

/-- A sample with cpu at 97% and low memory/disk usage. -/
def mSample : SystemMetrics :=
  { timestamp := 77, serverName := "host-1"
    cpu := { usage := 97, cores := 8 }
    memory := { total := 100, available := 60, used := 40, usedPercent := 40 }
    disk := { total := 100, free := 70, used := 30, usedPercent := 30 }
    network := { bytesSent := 5, bytesRecv := 6, packetsSent := 7, packetsRecv := 8 }
    uptime := 3600 }

/-- The default thresholds: cpu 90, memory 95, disk 95. -/
def tSample : AlertThresholds := { cpu := 90, memory := 95, disk := 95 }

/-- C5 witness: on `mSample` only the cpu threshold is exceeded, so
exactly one cpu alert and no memory or disk alert is produced. -/
theorem CheckAlerts_one_alert_witness :
    (CheckAlerts mSample tSample).countP (fun a => a.type == "cpu") = 1
    ∧ (CheckAlerts mSample tSample).countP (fun a => a.type == "memory") = 0
    ∧ (CheckAlerts mSample tSample).countP (fun a => a.type == "disk") = 0 := by
  obtain ⟨h1, h2, h3, _⟩ := CheckAlerts_one_alert_per_exceeded_threshold mSample tSample
  refine ⟨?_, ?_, ?_⟩
  · rw [h1]; norm_num [mSample, tSample]
  · rw [h2]; norm_num [mSample, tSample]
  · rw [h3]; norm_num [mSample, tSample]

/-- C9: an observed value exactly at its configured threshold produces
no alert for that family — the comparison is strict — and a sample at
or below all three thresholds produces the empty alert list. -/
theorem CheckAlerts_no_alert_at_exact_threshold
    (m : SystemMetrics) (t : AlertThresholds) :
    (m.cpu.usage = t.cpu →
      (CheckAlerts m t).countP (fun a => a.type == "cpu") = 0)
    ∧ (m.memory.usedPercent = t.memory →
      (CheckAlerts m t).countP (fun a => a.type == "memory") = 0)
    ∧ (m.disk.usedPercent = t.disk →
      (CheckAlerts m t).countP (fun a => a.type == "disk") = 0)
    ∧ (m.cpu.usage ≤ t.cpu → m.memory.usedPercent ≤ t.memory →
       m.disk.usedPercent ≤ t.disk → CheckAlerts m t = []) := by
  refine ⟨?_, ?_, ?_, ?_⟩
  · intro hEq
    rw [CheckAlerts_countP_cpu, if_neg (by rw [hEq]; exact lt_irrefl _)]
  · intro hEq
    rw [CheckAlerts_countP_memory, if_neg (by rw [hEq]; exact lt_irrefl _)]
  · intro hEq
    rw [CheckAlerts_countP_disk, if_neg (by rw [hEq]; exact lt_irrefl _)]
  · intro h1 h2 h3
    unfold CheckAlerts
    rw [if_neg (not_lt_of_le h1), if_neg (not_lt_of_le h2), if_neg (not_lt_of_le h3)]
    rfl

/-- A sample sitting exactly at all three thresholds of `tSample`. -/
def mAtThreshold : SystemMetrics :=
  { mSample with cpu := { usage := 90, cores := 8 }
                 memory := { total := 100, available := 5, used := 95, usedPercent := 95 }
                 disk := { total := 100, free := 5, used := 95, usedPercent := 95 } }

/-- C9 witness: a sample exactly at thresholds 90/95/95 yields no
alert at all. -/
theorem CheckAlerts_no_alert_at_exact_threshold_witness :
    CheckAlerts mAtThreshold tSample = [] := by
  have h := CheckAlerts_no_alert_at_exact_threshold mAtThreshold tSample
  exact h.2.2.2 (by norm_num [mAtThreshold, mSample, tSample])
    (by norm_num [mAtThreshold, mSample, tSample])
    (by norm_num [mAtThreshold, mSample, tSample])

end Metrics

/-! ## The metrics decode round trip (claim C6) -/

/-- Integers up to 2^53 are exactly representable in binary64, so the
generic decode leaves them unchanged. -/
theorem f64roundNat_of_le (n : Nat) (hn : n ≤ 2 ^ 53) : f64roundNat n = n := by
  unfold f64roundNat
  rw [if_pos hn]

/-- A `uint64` field of at most 2^53 survives the generic decode
unchanged. -/
theorem decodeUint64ViaF64_of_le (n : Nat) (hn : n ≤ 2 ^ 53) :
    decodeUint64ViaF64 n = some n := by
  unfold decodeUint64ViaF64
  rw [f64roundNat_of_le n hn, if_pos (by omega : n < 2 ^ 64)]

/-- An `int64` field of magnitude at most 2^53 survives the generic
decode unchanged. -/
theorem decodeInt64ViaF64_of_le (i : Int) (hi : i.natAbs ≤ 2 ^ 53) :
    decodeInt64ViaF64 i = some i := by
  unfold decodeInt64ViaF64
  rw [f64roundNat_of_le i.natAbs hi]
  rw [Int.sign_mul_natAbs]
  rw [if_pos (by omega : -(2 ^ 63 : Int) ≤ i ∧ i < 2 ^ 63)]

/-- A metric sample whose memory.total byte counter is 2^53 + 1, a
representable uint64 that is not representable in binary64. -/
def mBig : Metrics.SystemMetrics :=
  { timestamp := 3, serverName := "host-1"
    cpu := { usage := 12.5, cores := 8 }
    memory := { total := 2 ^ 53 + 1, available := 60, used := 40, usedPercent := 40.5 }
    disk := { total := 100, free := 70, used := 30, usedPercent := 30 }
    network := { bytesSent := 5, bytesRecv := 6, packetsSent := 7, packetsRecv := 8 }
    uptime := 3600 }

/-- C6 counterexample: the claim fails on the full uint64 range — the
sample `mBig` with memory.total = 2^53 + 1 parses back with
memory.total = 2^53, because the generic decode stage goes through
float64. -/
theorem metrics_roundtrip_alters_large_counter :
    (roundTripMetrics mBig).map (fun d => d.memory.total) = some (2 ^ 53)
    ∧ mBig.memory.total = 2 ^ 53 + 1
    ∧ ¬ (roundTripMetrics mBig).map (fun d => d.memory.total) = some mBig.memory.total := by
  refine ⟨?_, rfl, ?_⟩
  · decide
  · intro hcontra
    rw [show (roundTripMetrics mBig).map (fun d => d.memory.total) = some (2 ^ 53) from by
      decide] at hcontra
    simp [mBig] at hcontra

/-- C6, amended: serializing a MetricSample inside an Envelope of type
"metrics" and running the collector's parse path yields field-for-field
identical values — the floating-point percentage fields, the name and
the timestamp always round-trip exactly — provided every integer field
has magnitude at most 2^53 (the float64-exact integer range); above
that the generic decode stage may alter a counter, so identity does not
extend to the full uint64 range. -/
theorem metrics_roundtrip_identity_within_f64_range (m : Metrics.SystemMetrics)
    (hcc : m.cpu.cores.natAbs ≤ 2 ^ 53)
    (hmt : m.memory.total ≤ 2 ^ 53) (hma : m.memory.available ≤ 2 ^ 53)
    (hmu : m.memory.used ≤ 2 ^ 53)
    (hdt : m.disk.total ≤ 2 ^ 53) (hdf : m.disk.free ≤ 2 ^ 53)
    (hdu : m.disk.used ≤ 2 ^ 53)
    (hbs : m.network.bytesSent ≤ 2 ^ 53) (hbr : m.network.bytesRecv ≤ 2 ^ 53)
    (hps : m.network.packetsSent ≤ 2 ^ 53) (hpr : m.network.packetsRecv ≤ 2 ^ 53)
    (hup : m.uptime.natAbs ≤ 2 ^ 53) :
    roundTripMetrics m = some
      { timestamp := m.timestamp
        serverName := m.serverName
        cpu := { usage := m.cpu.usage, cores := m.cpu.cores }
        memory := { total := m.memory.total, available := m.memory.available
                    used := m.memory.used, usedPercent := m.memory.usedPercent }
        disk := { total := m.disk.total, free := m.disk.free
                  used := m.disk.used, usedPercent := m.disk.usedPercent }
        network := { bytesSent := m.network.bytesSent, bytesRecv := m.network.bytesRecv
                     packetsSent := m.network.packetsSent, packetsRecv := m.network.packetsRecv }
        uptime := m.uptime } := by
  unfold roundTripMetrics
  rw [decodeInt64ViaF64_of_le _ hcc, decodeUint64ViaF64_of_le _ hmt,
    decodeUint64ViaF64_of_le _ hma, decodeUint64ViaF64_of_le _ hmu,
    decodeUint64ViaF64_of_le _ hdt, decodeUint64ViaF64_of_le _ hdf,
    decodeUint64ViaF64_of_le _ hdu, decodeUint64ViaF64_of_le _ hbs,
    decodeUint64ViaF64_of_le _ hbr, decodeUint64ViaF64_of_le _ hps,
    decodeUint64ViaF64_of_le _ hpr, decodeInt64ViaF64_of_le _ hup]
  rfl

/-- C6 witness: a concrete sample within the float64-exact range
round-trips to itself, percentages included. -/
theorem metrics_roundtrip_identity_witness :
    roundTripMetrics
      { timestamp := 3, serverName := "host-1"
        cpu := { usage := 12.5, cores := 8 }
        memory := { total := 100, available := 60, used := 40, usedPercent := 40.5 }
        disk := { total := 100, free := 70, used := 30, usedPercent := 30 }
        network := { bytesSent := 5, bytesRecv := 6, packetsSent := 7, packetsRecv := 8 }
        uptime := 3600 }
    = some
      { timestamp := 3, serverName := "host-1"
        cpu := { usage := 12.5, cores := 8 }
        memory := { total := 100, available := 60, used := 40, usedPercent := 40.5 }
        disk := { total := 100, free := 70, used := 30, usedPercent := 30 }
        network := { bytesSent := 5, bytesRecv := 6, packetsSent := 7, packetsRecv := 8 }
        uptime := 3600 } := by
  exact metrics_roundtrip_identity_within_f64_range _
    (by norm_num) (by norm_num) (by norm_num) (by norm_num) (by norm_num) (by norm_num)
    (by norm_num) (by norm_num) (by norm_num) (by norm_num) (by norm_num) (by norm_num)

/-! ## Collector registry and session handler (claims C1, C2, C4, C7, C8, C10) -/

namespace Handlers

/-- The monitored target the concrete evaluations run against: server 1
with token "tok-1". -/
def srv1 : Models.Server :=
  { id := 1, userId := 7, token := "tok-1", name := "host-1"
    lastSeen := none, status := "offline" }

/-- A store holding only `srv1`. -/
def db1 : Models.Database := { servers := [srv1], metrics := [], alerts := [] }

/-- Connection A: agent registration for `srv1` at t = 1000 on a fresh
handler; its connection identifier is 0. -/
def regA : ConnectResult :=
  HandleAgentConnection (NewWebSocketHandler db1) "tok-1" "host-1" false false 1000

/-- Connection B: a second registration for the same target at t = 2000
while A is still live; its connection identifier is 1. -/
def regB : ConnectResult :=
  HandleAgentConnection regA.state "tok-1" "host-1" false false 2000

/-- C1: evaluation of the code at the failing input.  Registering
connection B for server 1 while connection A is registered leaves A's
transport open and its outbound queue unreleased (so two live
Connections exist for the identity, against the claim's teardown), and
when A's reader later exits, `unregisterConnection` — keyed only by
server ID — deletes the registry entry now pointing at B and marks the
target offline, leaving the live, open connection B unreachable. -/
theorem duplicate_registration_keeps_old_connection_live :
    (regB.state.conns 0).transportClosed = false
    ∧ (regB.state.conns 0).sendClosed = false
    ∧ (regB.state.conns 1).transportClosed = false
    ∧ mapLookup regB.state.connections 1 = some 1
    ∧ regB.state.connections.length = 1
    ∧ mapLookup (readerExit regB.state 0).connections 1 = none
    ∧ ((readerExit regB.state 0).conns 1).transportClosed = false
    ∧ ((readerExit regB.state 0).conns 1).sendClosed = false
    ∧ IsAgentConnected (readerExit regB.state 0) 1 = false
    ∧ (readerExit regB.state 0).db.servers.map (fun s => s.status) = ["offline"] := by
  decide

/-- A decoded metric sample with cpu.usage = 92.5 and low memory and
disk usage. -/
def md925 : Models.MetricData :=
  { timestamp := 1500, serverName := "host-1"
    cpu := { usage := 92.5, cores := 4 }
    memory := { total := 100, available := 50, used := 50, usedPercent := 50 }
    disk := { total := 100, free := 70, used := 30, usedPercent := 30 }
    network := { bytesSent := 1, bytesRecv := 2, packetsSent := 3, packetsRecv := 4 }
    uptime := 10 }

/-- The "metrics" Envelope carrying `md925`. -/
def msg925 : Models.AgentMessage :=
  { type := "metrics", token := "tok-1", serverName := "host-1"
    data := { asMetricData := some md925, asAlertData := none }, timestamp := 1500 }

/-- C4: evaluation of the code at the failing input.  On the sample
with cpu.usage = 92.5 the dispatch handler records status "warning",
but the read loop then calls `UpdateServerLastSeen` — which also writes
status "online" — so after the Session Handler finishes processing the
message the target's recorded status is "online", not "warning". -/
theorem metrics_status_overwritten_by_lastseen :
    (handleMetricsMessage regA.state 0 msg925).db.servers.map (fun s => s.status)
        = ["warning"]
    ∧ (handleAgentMessagesStep regA.state 0 msg925 2000).db.servers.map (fun s => s.status)
        = ["online"] := by
  have hc : (90 : ℚ) < 92.5 := by norm_num
  simp [handleMetricsMessage, handleAgentMessagesStep, dispatchAgentMessage, regA, db1,
    srv1, msg925, md925, HandleAgentConnection, NewWebSocketHandler,
    Models.GetServerByToken, Models.UpdateServerLastSeen, Models.UpdateServerStatus,
    Models.CreateMetric, Models.saveServer, mapInsert, mapLookup, updateConn,
    List.find?, hc]

/-- C2 counterexample: a connection registered at t = 1000 processes an
inbound "metrics" Envelope at t = 2000, yet its liveness timestamp
stays 1000 — not the time of the message — and its read-deadline is
not reset either. -/
theorem inbound_message_does_not_update_lastPing :
    ((handleAgentMessagesStep (readerStart regA.state 0 1000) 0 msg925 2000).conns 0).lastPing
        = 1000
    ∧ ¬ ((handleAgentMessagesStep (readerStart regA.state 0 1000) 0 msg925 2000).conns 0).lastPing
        = 2000
    ∧ ((handleAgentMessagesStep (readerStart regA.state 0 1000) 0 msg925 2000).conns 0).readDeadline
        = 1000 + 60 * second := by
  decide

/-- Dispatching an Envelope never touches any connection object. -/
theorem dispatch_conns (h : WebSocketHandler) (cid : Nat) (m : Models.AgentMessage) :
    (dispatchAgentMessage h cid m).conns = h.conns := by
  unfold dispatchAgentMessage handleMetricsMessage handleAlertMessage
  split
  · split <;> rfl
  · split
    · split <;> rfl
    · rfl

/-- Dispatching an Envelope never touches the registry. -/
theorem dispatch_connections (h : WebSocketHandler) (cid : Nat) (m : Models.AgentMessage) :
    (dispatchAgentMessage h cid m).connections = h.connections := by
  unfold dispatchAgentMessage handleMetricsMessage handleAlertMessage
  split
  · split <;> rfl
  · split
    · split <;> rfl
    · rfl

/-- C2, amended: the Connection's liveness timestamp and read-deadline
are updated only by the pong handler (to the pong's arrival time, and
to it plus 60 s); processing an inbound message leaves every connection
object — in particular `lastPing` and the read-deadline — unchanged,
and instead updates the target's *persisted* last-seen to the message
time, also forcing its recorded status to "online". -/
theorem liveness_updates_only_on_pong (h : WebSocketHandler) (cid : Nat)
    (msg : Models.AgentMessage) (now : Nat) :
    (handleAgentMessagesStep h cid msg now).conns = h.conns
    ∧ ((pongHandler h cid now).conns cid).lastPing = now
    ∧ ((pongHandler h cid now).conns cid).readDeadline = now + 60 * second
    ∧ (handleAgentMessagesStep h cid msg now).db.servers
        = (dispatchAgentMessage h cid msg).db.servers.map (fun s =>
            if s.id = (h.conns cid).serverId
            then { s with lastSeen := some now, status := "online" } else s) := by
  refine ⟨dispatch_conns h cid msg, ?_, ?_, rfl⟩
  · simp [pongHandler, updateConn]
  · simp [pongHandler, updateConn]

/-- C7: a connection attempt whose token does not resolve to any known
target is rejected — 400 for an empty token, 401 otherwise — the
transport upgrade is never performed, no connection is created, and the
whole handler state (registry included) is left exactly unchanged. -/
theorem unresolvable_token_rejected (h : WebSocketHandler)
    (token serverName : String) (upgradeFail : Bool) (now : Nat)
    (htok : ∀ s ∈ h.db.servers, s.token ≠ token) :
    (HandleAgentConnection h token serverName false upgradeFail now).upgraded = false
    ∧ (HandleAgentConnection h token serverName false upgradeFail now).state = h
    ∧ (HandleAgentConnection h token serverName false upgradeFail now).newCid = none
    ∧ (HandleAgentConnection h token serverName false upgradeFail now).response
        = (if token = "" then ConnectResponse.badRequest else ConnectResponse.unauthorized) := by
  have hfind : Models.GetServerByToken h.db token = none := by
    unfold Models.GetServerByToken
    rw [List.find?_eq_none]
    intro s hs
    simpa using htok s hs
  unfold HandleAgentConnection
  by_cases hemp : token = ""
  · simp [hemp]
  · simp [hemp, hfind]

/-- C7 witness: on the one-server store, the token "bad-token" is
rejected with 401, no upgrade, and an unchanged handler state. -/
theorem unresolvable_token_rejected_witness :
    (HandleAgentConnection (NewWebSocketHandler db1) "bad-token" "x" false false 5).upgraded
        = false
    ∧ (HandleAgentConnection (NewWebSocketHandler db1) "bad-token" "x" false false 5).state
        = NewWebSocketHandler db1
    ∧ (HandleAgentConnection (NewWebSocketHandler db1) "bad-token" "x" false false 5).response
        = ConnectResponse.unauthorized := by
  have h := unresolvable_token_rejected (NewWebSocketHandler db1) "bad-token" "x" false 5
    (by intro s hs; simp [NewWebSocketHandler, db1, srv1] at hs; simp [hs])
  refine ⟨h.1, h.2.1, ?_⟩
  rw [h.2.2.2]
  simp

/-- C8: `SendMessageToAgent` returns `ErrAgentNotConnected` when the
identity has no registered connection, returns `ErrAgentNotResponding`
immediately when the registered connection's bounded queue is full, and
otherwise enqueues the message and returns success; in both error cases
the whole handler state is returned unchanged, and even on success the
registry and the store are untouched. -/
theorem SendMessageToAgent_spec (h : WebSocketHandler) (sid : Nat)
    (mt dr : String) (now : Nat) :
    (mapLookup h.connections sid = none →
      SendMessageToAgent h sid mt dr now = (.errAgentNotConnected, h))
    ∧ (∀ cid, mapLookup h.connections sid = some cid →
        (h.conns cid).sendClosed = false →
        (¬ (h.conns cid).send.length < sendQueueCapacity →
          SendMessageToAgent h sid mt dr now = (.errAgentNotResponding, h))
        ∧ ((h.conns cid).send.length < sendQueueCapacity →
          SendMessageToAgent h sid mt dr now
            = (.ok, updateConn h cid (fun c =>
                { c with send := c.send ++ [mt ++ "|" ++ dr ++ "|" ++ toString now] }))
          ∧ (SendMessageToAgent h sid mt dr now).2.connections = h.connections
          ∧ (SendMessageToAgent h sid mt dr now).2.db = h.db)) := by
  constructor
  · intro hnone
    unfold SendMessageToAgent
    rw [hnone]
  · intro cid hsome hopen
    constructor
    · intro hfull
      unfold SendMessageToAgent
      rw [hsome]
      simp [hopen, hfull]
    · intro hroom
      unfold SendMessageToAgent
      rw [hsome]
      simp [hopen, hroom, updateConn]

/-- C8 witness: pushing to the unconnected server 1 returns
`ErrAgentNotConnected` with the state unchanged; pushing to it once
connection A is registered succeeds. -/
theorem SendMessageToAgent_spec_witness :
    SendMessageToAgent (NewWebSocketHandler db1) 1 "command" "p" 9
      = (.errAgentNotConnected, NewWebSocketHandler db1)
    ∧ (SendMessageToAgent regA.state 1 "command" "p" 9).1 = .ok := by
  constructor
  · exact (SendMessageToAgent_spec (NewWebSocketHandler db1) 1 "command" "p" 9).1 (by decide)
  · have h := ((SendMessageToAgent_spec regA.state 1 "command" "p" 9).2 0
      (by decide) (by decide)).2 (by decide)
    rw [h.1]

/-- C10: on a valid (non-empty, resolvable) token, a non-empty declared
`server_name` differing from the stored name is written through to the
store — the target's row gets the declared name — before the transport
upgrade (it is persisted even when the upgrade then fails), while an
empty or unchanged declared name leaves every stored name as it was. -/
theorem declared_name_persisted_before_upgrade (h : WebSocketHandler)
    (token serverName : String) (now : Nat) (server : Models.Server)
    (htok : token ≠ "")
    (hfind : Models.GetServerByToken h.db token = some server) :
    (serverName ≠ "" → server.name ≠ serverName →
      (HandleAgentConnection h token serverName false false now).state.db.servers
        = h.db.servers.map (fun x => if x.id = server.id then
            { server with name := serverName, lastSeen := some now, status := "online" } else x)
      ∧ (HandleAgentConnection h token serverName false false now).upgraded = true)
    ∧ (serverName ≠ "" → server.name ≠ serverName →
      (HandleAgentConnection h token serverName false true now).state.db.servers
        = h.db.servers.map (fun x => if x.id = server.id then
            { server with name := serverName } else x)
      ∧ (HandleAgentConnection h token serverName false true now).upgraded = false)
    ∧ ((serverName = "" ∨ server.name = serverName) →
      (HandleAgentConnection h token serverName false false now).state.db.servers
        = h.db.servers.map (fun x => if x.id = server.id then
            { x with lastSeen := some now, status := "online" } else x)
      ∧ (HandleAgentConnection h token serverName false false now).upgraded = true) := by
  refine ⟨?_, ?_, ?_⟩
  · intro hsn hne
    refine ⟨?_, ?_⟩
    · simp only [HandleAgentConnection, htok, if_neg, if_false, hfind,
        Models.saveServer, Models.UpdateServerLastSeen]
      simp [hsn, hne, List.map_map]
      intro x hx
      by_cases hid : x.id = server.id <;> simp [hid]
    · simp only [HandleAgentConnection, hfind]
      simp [htok, hsn, hne]
  · intro hsn hne
    refine ⟨?_, ?_⟩
    · simp only [HandleAgentConnection, hfind, Models.saveServer]
      simp [htok, hsn, hne]
    · simp only [HandleAgentConnection, hfind]
      simp [htok, hsn, hne]
  · intro hcase
    have h1 : (serverName ≠ "" ∧ server.name ≠ serverName) = False := by
      simp only [eq_iff_iff, iff_false]
      tauto
    refine ⟨?_, ?_⟩
    · simp only [HandleAgentConnection, hfind, Models.UpdateServerLastSeen]
      simp [htok, h1]
    · simp only [HandleAgentConnection, hfind]
      simp [htok, h1]

/-- C10 witness: connecting with token "tok-1" and declared name
"host-renamed" persists the rename (and the upgrade happens); with the
unchanged declared name "host-1" the stored name stays "host-1". -/
theorem declared_name_persisted_witness :
    (HandleAgentConnection (NewWebSocketHandler db1) "tok-1" "host-renamed" false false 42).state.db.servers
      = [{ srv1 with name := "host-renamed", lastSeen := some 42, status := "online" }]
    ∧ (HandleAgentConnection (NewWebSocketHandler db1) "tok-1" "host-renamed" false false 42).upgraded
      = true
    ∧ (HandleAgentConnection (NewWebSocketHandler db1) "tok-1" "host-1" false false 42).state.db.servers
      = [{ srv1 with lastSeen := some 42, status := "online" }] := by
  have h := declared_name_persisted_before_upgrade (NewWebSocketHandler db1) "tok-1"
    "host-renamed" 42 srv1 (by decide) (by decide)
  have h2 := declared_name_persisted_before_upgrade (NewWebSocketHandler db1) "tok-1"
    "host-1" 42 srv1 (by decide) (by decide)
  obtain ⟨ha, hb⟩ := h.1 (by decide) (by decide)
  obtain ⟨hc, _⟩ := h2.2.2 (Or.inr rfl)
  refine ⟨?_, hb, ?_⟩
  · rw [ha]
    simp [NewWebSocketHandler, db1, srv1]
  · rw [hc]
    simp [NewWebSocketHandler, db1, srv1]

end Handlers

end Monitaur
